import Mathlib

/-!
Shallow embedding of `datatables.py` (django-datatables-queryset):
the `DataTablesQuerySetMixin.datatables` method and the module-level
`nested_getattr` helper, together with theorems checking the
specification's claims about them.

Python strings are Lean `String`s; the Django `QueryDict` of GET
parameters is an association list (`pget` returns the last value for a
key, as `QueryDict.get` does, and the builders iterate over all pairs
in list order, modelling one dict-iteration order); Python `None` and
model instances are values of the `PyVal` type; exceptions are the
`Except PyErr` monad.  Only `ValueError` is caught around
`int(length)` / `int(start)` (so `int(None)` there raises an uncaught
`TypeError`), while the `draw` cast catches both, exactly as in the
source.
-/

namespace DTQ

/-! ### Character-list string utilities -/

/-- Split a character list at every occurrence of `sep`, keeping empty
pieces, like Python `str.split(sep)` for a one-character separator. -/
def chSplit (sep : Char) : List Char → List (List Char)
  | [] => [[]]
  | c :: rest =>
    if c = sep then [] :: chSplit sep rest
    else
      match chSplit sep rest with
      | h :: t => (c :: h) :: t
      | [] => [[c]]

/-- Python `s.split(sep)` for a one-character separator. -/
def strSplit (sep : Char) (s : String) : List String :=
  (chSplit sep s.data).map String.mk

/-- Split a character list on the two-character separator `__`
(leftmost, non-overlapping), like Python `s.split('__')`. -/
def splitUU : List Char → List (List Char)
  | '_' :: '_' :: rest => [] :: splitUU rest
  | c :: rest =>
    match splitUU rest with
    | h :: t => (c :: h) :: t
    | [] => [[c]]
  | [] => [[]]

/-- Python `',' in s`. -/
def hasComma (s : String) : Bool := s.data.any (· = ',')

/-- Python 2 `str.isdigit()`: non-empty and all ASCII digits. -/
def isDigits (s : String) : Bool := !s.data.isEmpty && s.data.all (·.isDigit)

/-- Python `s.replace('.', '__')`. -/
def replaceDots (s : String) : String :=
  String.mk (List.intercalate ['_', '_'] (chSplit '.' s.data))

/-- Python `s.startswith('!')`. -/
def strStartsWithBang (s : String) : Bool :=
  match s.data with
  | '!' :: _ => true
  | _ => false

/-- Python `s[1:]`. -/
def strDrop1 (s : String) : String := String.mk s.data.tail

/-- Whitespace characters stripped by Python `int()`. -/
def isWS (c : Char) : Bool := c == ' ' || c == '\t' || c == '\n' || c == '\r'

/-- Strip leading and trailing whitespace. -/
def trimWS (l : List Char) : List Char :=
  ((l.dropWhile isWS).reverse.dropWhile isWS).reverse

/-- Decimal value of a digit list. -/
def digitsVal (l : List Char) : Nat :=
  l.foldl (fun a c => a * 10 + (c.toNat - 48)) 0

/-- `some` of the value when the list is one or more digits, else `none`. -/
def natDigits (l : List Char) : Option Nat :=
  if !l.isEmpty && l.all (·.isDigit) then some (digitsVal l) else none

/-- Python `int(s)` on a string: optional surrounding whitespace, one
optional sign, at least one digit; `none` models `ValueError`. -/
def pyInt (s : String) : Option Int :=
  match trimWS s.data with
  | '+' :: rest => (natDigits rest).map Int.ofNat
  | '-' :: rest => (natDigits rest).map (fun n => -(n : Int))
  | l => (natDigits l).map Int.ofNat

/-- Strip a prefix from a character list, or `none`. -/
def stripPre : List Char → List Char → Option (List Char)
  | [], rest => some rest
  | _ :: _, [] => none
  | p :: ps, c :: cs => if p = c then stripPre ps cs else none

/-- Strip a suffix from a character list, or `none`. -/
def stripSuf (suf l : List Char) : Option (List Char) :=
  (stripPre suf.reverse l.reverse).map List.reverse

/-- Model of `re.search(r'^PRE(.+)SUF$', s)` for the fixed key patterns
of the source: the (greedy) group is everything strictly between the
literal prefix and suffix, and must be non-empty. -/
def matchKey (pre suf s : String) : Option String :=
  match stripPre pre.data s.data with
  | none => none
  | some rest =>
    match stripSuf suf.data rest with
    | none => none
    | some mid => if mid.isEmpty then none else some (String.mk mid)

/-! ### Request parameters (Django `QueryDict`) -/

/-- The GET parameter multimap, in iteration order. -/
abbrev Params := List (String × String)

/-- `params.get(key)`: the last value stored under `key`, or `none`. -/
def pget (ps : Params) (k : String) : Option String :=
  (ps.reverse.find? (fun pv => pv.1 == k)).map (·.2)

/-! ### Values, records, exceptions -/

/-- Python values that can appear as model-record attributes and output
cells: `None`, booleans, integers, strings, `datetime.datetime`
instances (year, month, day, hour, minute, second), and objects with
named attributes. -/
inductive PyVal : Type where
  | none : PyVal
  | bool : Bool → PyVal
  | int : Int → PyVal
  | str : String → PyVal
  | datetime : Nat → Nat → Nat → Nat → Nat → Nat → PyVal
  | obj : List (String × PyVal) → PyVal

/-- Uncaught exceptions the source can raise. -/
inductive PyErr : Type where
  | typeError : PyErr
  | attributeError : PyErr
  | assertionError : PyErr
deriving DecidableEq

/-- Attribute lookup on an attribute list. -/
def lookupStr : List (String × PyVal) → String → Option PyVal
  | [], _ => Option.none
  | (k, v) :: rest, n => if k = n then some v else lookupStr rest n

/-- Python `obj is None`. -/
def isNoneV : PyVal → Bool
  | .none => true
  | _ => false

/-- Python `getattr(o, name)`: attribute of an object, `AttributeError`
when the attribute is missing or the value has no such attribute. -/
def pyGetattr (o : PyVal) (name : String) : Except PyErr PyVal :=
  match o with
  | .obj fs =>
    match lookupStr fs name with
    | some v => .ok v
    | Option.none => .error .attributeError
  | _ => .error .attributeError

/-- The loop of `nested_getattr`: walk the dot-segments, breaking out
(and returning the current `None`) as soon as the current object is
`None`; a missing attribute re-raises `AttributeError`. -/
def ngLoop (o : PyVal) : List String → Except PyErr PyVal
  | [] => .ok o
  | seg :: rest =>
    if isNoneV o then .ok o
    else
      match pyGetattr o seg with
      | .error e => .error e
      | .ok o2 => ngLoop o2 rest

/-- `nested_getattr(obj, attr)` from the source: `getattr` supporting
nested dotted attributes. -/
def nested_getattr (obj : PyVal) (attr : String) : Except PyErr PyVal :=
  ngLoop obj (strSplit '.' attr)

/-! ### Column map -/

/-- A column-map entry: a (possibly dotted) model field path, or a
callable computing the cell from the record. -/
inductive ColField : Type where
  | path : String → ColField
  | computed : (PyVal → PyVal) → ColField

/-- The caller-supplied mapping from UI column names to fields, in dict
iteration order. -/
abbrev Columns := List (String × ColField)

/-- `columns.get(name)`. -/
def colsGet : Columns → String → Option ColField
  | [], _ => Option.none
  | (k, v) :: rest, n => if k = n then some v else colsGet rest n

/-! ### Filter clause builder -/

/-- A value stored in a filter-kwargs dict: a string, the boolean
`True` (for `isnull`), or a list of strings (for `in`). -/
inductive CondVal : Type where
  | vStr : String → CondVal
  | vTrue : CondVal
  | vList : List String → CondVal

/-- Python dict assignment `d[k] = v` on an association list:
overwrite in place, else append. -/
def pySet (d : List (String × CondVal)) (k : String) (v : CondVal) :
    List (String × CondVal) :=
  match d with
  | [] => [(k, v)]
  | (k0, v0) :: rest => if k0 = k then (k, v) :: rest else (k0, v0) :: pySet rest k v

/-- The structured filter intent: the OR group (`or_condition`, a
disjunction of `field__icontains` tests), the AND group
(`and_condition`) and the AND-NOT group (`and_not_condition`). -/
structure FilterSpec : Type where
  orC : List (String × String)
  andC : List (String × CondVal)
  andNotC : List (String × CondVal)

/-- Lines 129-138 of the source: pick the lookup operator and
comparison value from a (already `!`-stripped) per-column search
value. -/
def classify (sv : String) : String × CondVal :=
  if sv = "None" then ("isnull", .vTrue)
  else if isDigits sv then ("exact", .vStr sv)
  else if hasComma sv then ("in", .vList (strSplit ',' sv))
  else ("icontains", .vStr sv)

/-- `columns[i][name]` falling back to `columns[i][data]` when the
former is absent or empty (Python truthiness). -/
def colNameOf (ps : Params) (col : String) : Option String :=
  match pget ps ("columns[" ++ col ++ "][name]") with
  | some s => if s = "" then pget ps ("columns[" ++ col ++ "][data]") else some s
  | Option.none => pget ps ("columns[" ++ col ++ "][data]")

/-- Resolve a column index to a usable model field path: skipped when
the name is unknown, unmapped, mapped to a callable, or mapped to a
falsy (empty) path. -/
def fieldOf (cols : Columns) (ps : Params) (col : String) : Option String :=
  match colNameOf ps col with
  | Option.none => Option.none
  | some cn =>
    match colsGet cols cn with
    | some (.path p) => if p = "" then Option.none else some p
    | _ => Option.none

/-- One iteration of the first parameter loop (lines 106-148): handle
one `(param, val)` pair, updating the filter spec. -/
def colSearchStep (cols : Columns) (ps : Params) (gv : Option String)
    (acc : FilterSpec) (pv : String × String) : FilterSpec :=
  match matchKey "columns[" "][searchable]" pv.1 with
  | Option.none => acc
  | some col =>
    if pv.2 = "true" then
      match fieldOf cols ps col with
      | Option.none => acc
      | some p =>
        let mf := replaceDots p
        let globalBranch : FilterSpec :=
          match gv with
          | some g => if g = "" then acc
              else { acc with orC := acc.orC ++ [(mf ++ "__icontains", g)] }
          | Option.none => acc
        match pget ps ("columns[" ++ col ++ "][search][value]") with
        | Option.none => globalBranch
        | some sv =>
          if sv = "" then globalBranch
          else
            let negated := strStartsWithBang sv
            let sv2 := if negated then strDrop1 sv else sv
            let mv := classify sv2
            if negated then
              { acc with andNotC := pySet acc.andNotC (mf ++ "__" ++ mv.1) mv.2 }
            else
              { acc with andC := pySet acc.andC (mf ++ "__" ++ mv.1) mv.2 }
    else acc

/-- The whole first loop: fold over all request parameters. -/
def buildFilter (cols : Columns) (ps : Params) : FilterSpec :=
  ps.foldl (colSearchStep cols ps (pget ps "search[value]")) ⟨[], [], []⟩

/-! ### Sort spec builder -/

/-- Python `list.insert(idx, x)` including its index clamping (and
negative-index) normalization. -/
def pyInsert (l : List String) (idx : Int) (x : String) : List String :=
  let pos : Nat :=
    if idx < 0 then (max ((l.length : Int) + idx) 0).toNat
    else min idx.toNat l.length
  l.take pos ++ x :: l.drop pos

/-- One iteration of the ordering loop (lines 152-182). -/
def orderStep (cols : Columns) (ps : Params) (acc : List String)
    (pv : String × String) : List String :=
  match matchKey "order[" "][column]" pv.1 with
  | Option.none => acc
  | some idxStr =>
    match pyInt idxStr with
    | Option.none => acc
    | some idx =>
      match pget ps ("order[" ++ idxStr ++ "][dir]") with
      | Option.none => acc
      | some dir =>
        if dir = "asc" ∨ dir = "desc" then
          if pget ps ("columns[" ++ pv.2 ++ "][orderable]") = some "true" then
            match fieldOf cols ps pv.2 with
            | Option.none => acc
            | some p =>
              let mf := replaceDots p
              let tok := if dir = "desc" then "-" ++ mf else mf
              pyInsert acc idx tok
          else acc
        else acc

/-- The whole ordering loop: fold over all request parameters. -/
def buildOrder (cols : Columns) (ps : Params) : List String :=
  ps.foldl (orderStep cols ps) []

/-! ### Pagination (lines 184-193) -/

/-- The pagination block: defaults `limit = 10`, `offset = 0`; only
`ValueError` is caught, so `int(None)` on an absent `length` or
`start` raises an uncaught `TypeError`; `limit == -1` with a truthy
`limit` parameter re-reads the limit. -/
def pagination (ps : Params) : Except PyErr (Int × Int) :=
  match pget ps "length" with
  | Option.none => .error .typeError
  | some ls =>
    match pyInt ls with
    | Option.none => .ok (10, 0)
    | some limit =>
      match pget ps "start" with
      | Option.none => .error .typeError
      | some ss =>
        match pyInt ss with
        | Option.none => .ok (limit, 0)
        | some offset =>
          match pget ps "limit" with
          | some us =>
            if limit = -1 ∧ us ≠ "" then
              match pyInt us with
              | Option.none => .ok (limit, offset)
              | some m => .ok (m, offset)
            else .ok (limit, offset)
          | Option.none => .ok (limit, offset)

/-! ### Queryset semantics -/

/-- Field traversal for ORM lookups: follow attribute segments;
`none` when a segment is missing or an intermediate value has no
attributes (LEFT JOIN over a null relation). -/
def resolvePath : PyVal → List String → Option PyVal
  | v, [] => some v
  | v, seg :: rest =>
    match v with
    | .obj fs =>
      match lookupStr fs seg with
      | some w => resolvePath w rest
      | Option.none => Option.none
    | _ => Option.none

/-- Split a flattened kwargs key `path__…__method` into the field-path
segments and the final lookup method. -/
def splitKeyMethod (key : String) : List String × String :=
  let parts := (splitUU key.data).map String.mk
  (parts.dropLast, parts.getLastD "")

/-- SQL-style equality of a stored value against a query string. -/
def valEqStr (v : PyVal) (s : String) : Bool :=
  match v with
  | .str t => t == s
  | .int n => toString n == s
  | _ => false

/-- Lower-case a character list. -/
def lcList (l : List Char) : List Char := l.map Char.toLower

/-- Boolean list-prefix test. -/
def isPrefixB : List Char → List Char → Bool
  | [], _ => true
  | _ :: _, [] => false
  | a :: as, b :: bs => a == b && isPrefixB as bs

/-- Boolean substring test. -/
def containsSub (needle : List Char) : List Char → Bool
  | [] => needle.isEmpty
  | c :: rest => isPrefixB needle (c :: rest) || containsSub needle rest

/-- Text rendering of a value for `LIKE` comparisons. -/
def asText : PyVal → Option String
  | .str t => some t
  | .int n => some (toString n)
  | _ => Option.none

/-- `icontains`: case-insensitive substring match. -/
def icontainsB (v : PyVal) (s : String) : Bool :=
  match asText v with
  | some t => containsSub (lcList s.data) (lcList t.data)
  | Option.none => false

/-- Evaluate one flattened filter kwarg `key = cv` on a record. -/
def evalCond (r : PyVal) (key : String) (cv : CondVal) : Bool :=
  let pm := splitKeyMethod key
  let res := resolvePath r pm.1
  match pm.2, cv with
  | "isnull", .vTrue =>
    match res with
    | Option.none => true
    | some w => isNoneV w
  | "exact", .vStr s =>
    match res with
    | some w => valEqStr w s
    | Option.none => false
  | "in", .vList l =>
    match res with
    | some w => l.any (valEqStr w)
    | Option.none => false
  | "icontains", .vStr s =>
    match res with
    | some w => icontainsB w s
    | Option.none => false
  | _, _ => false

/-- Conjunction of a kwargs dict on a record. -/
def matchesAll (conds : List (String × CondVal)) (r : PyVal) : Bool :=
  conds.all (fun c => evalCond r c.1 c.2)

/-- Disjunction of the OR group (each entry an `icontains` test). -/
def matchesAnyOr (conds : List (String × String)) (r : PyVal) : Bool :=
  conds.any (fun c => evalCond r c.1 (.vStr c.2))

/-- `.filter(**and_condition)`: keep rows matching every kwarg
(no kwargs keeps everything). -/
def applyAnd (conds : List (String × CondVal)) (rows : List PyVal) : List PyVal :=
  rows.filter (matchesAll conds)

/-- `.exclude(**and_not_condition)`: drop rows matching every kwarg;
with no kwargs Django's `exclude()` is a no-op. -/
def applyExclude (conds : List (String × CondVal)) (rows : List PyVal) : List PyVal :=
  match conds with
  | [] => rows
  | _ :: _ => rows.filter (fun r => !(matchesAll conds r))

/-- `.filter(or_condition)`: keep rows matching some disjunct; the
empty `Q()` is a no-op. -/
def applyOr (conds : List (String × String)) (rows : List PyVal) : List PyVal :=
  match conds with
  | [] => rows
  | _ :: _ => rows.filter (matchesAnyOr conds)

/-- Line 196's filter chain:
`self.filter(**and_condition).exclude(**and_not_condition).filter(or_condition)`. -/
def applyFilters (spec : FilterSpec) (rows : List PyVal) : List PyVal :=
  applyOr spec.orC (applyExclude spec.andNotC (applyAnd spec.andC rows))

/-- Constructor rank, used to give the modelled database a total order
across value types. -/
def rankV : PyVal → Nat
  | .none => 0
  | .bool _ => 1
  | .int _ => 2
  | .str _ => 3
  | .datetime _ _ _ _ _ _ => 4
  | .obj _ => 5

/-- A total comparison on values, modelling the database collation. -/
def cmpVal (a b : PyVal) : Ordering :=
  match a, b with
  | .bool x, .bool y => compare (cond x 1 0) (cond y (1 : Nat) 0)
  | .int x, .int y => compare x y
  | .str x, .str y => compare x y
  | .datetime y1 m1 d1 h1 i1 s1, .datetime y2 m2 d2 h2 i2 s2 =>
    (compare y1 y2).then ((compare m1 m2).then ((compare d1 d2).then
      ((compare h1 h2).then ((compare i1 i2).then (compare s1 s2)))))
  | _, _ => compare (rankV a) (rankV b)

/-- Comparison lifted to optional values (SQL NULLs first). -/
def cmpOptVal : Option PyVal → Option PyVal → Ordering
  | Option.none, Option.none => .eq
  | Option.none, some _ => .lt
  | some _, Option.none => .gt
  | some a, some b => cmpVal a b

/-- Compare two records under one `order_by` token (leading `-` is the
descending marker). -/
def tokenCmp (tok : String) (a b : PyVal) : Ordering :=
  match tok.data with
  | '-' :: rest =>
    let p := (splitUU rest).map String.mk
    cmpOptVal (resolvePath b p) (resolvePath a p)
  | _ =>
    let p := (splitUU tok.data).map String.mk
    cmpOptVal (resolvePath a p) (resolvePath b p)

/-- Lexicographic comparison under an `order_by` token sequence. -/
def toksCmp : List String → PyVal → PyVal → Ordering
  | [], _, _ => .eq
  | t :: ts, a, b => (tokenCmp t a b).then (toksCmp ts a b)

/-- Boolean order for sorting under the token sequence. -/
def sortLE (toks : List String) (a b : PyVal) : Bool :=
  match toksCmp toks a b with
  | .gt => false
  | _ => true

/-- Insert into a sorted list. -/
def insSorted (le : PyVal → PyVal → Bool) (x : PyVal) : List PyVal → List PyVal
  | [] => [x]
  | y :: ys => if le x y then x :: y :: ys else y :: insSorted le x ys

/-- Insertion sort. -/
def isort (le : PyVal → PyVal → Bool) : List PyVal → List PyVal
  | [] => []
  | x :: xs => insSorted le x (isort le xs)

/-- `.order_by(*order_by)`: with no tokens the ordering is cleared
(rows stay in storage order); otherwise sort by the token sequence. -/
def orderBy (toks : List String) (rows : List PyVal) : List PyVal :=
  match toks with
  | [] => rows
  | _ :: _ => isort (sortLE toks) rows

/-- `data[offset : offset + limit]` on a queryset: Django refuses
negative slice bounds with an `AssertionError`; otherwise the usual
window. -/
def qslice (offset limit : Int) (rows : List PyVal) : Except PyErr (List PyVal) :=
  if offset < 0 ∨ offset + limit < 0 then .error .assertionError
  else .ok ((rows.drop offset.toNat).take limit.toNat)

/-! ### Row materialization (lines 202-216) -/

/-- An output record. -/
abbrev Row := List (String × PyVal)

/-- Zero-pad to two digits. -/
def pad2 (n : Nat) : String := if n < 10 then "0" ++ toString n else toString n

/-- Zero-pad to four digits. -/
def pad4 (n : Nat) : String :=
  if n < 10 then "000" ++ toString n
  else if n < 100 then "00" ++ toString n
  else if n < 1000 then "0" ++ toString n
  else toString n

/-- `val.strftime('%Y-%m-%d %H:%M:%S')`. -/
def fmtDateTime (y mo d h mi s : Nat) : String :=
  pad4 y ++ "-" ++ pad2 mo ++ "-" ++ pad2 d ++ " " ++
    pad2 h ++ ":" ++ pad2 mi ++ ":" ++ pad2 s

/-- Lines 212-213: `datetime.datetime` instances become their canonical
string form; every other value passes through unchanged. -/
def jsonSafe : PyVal → PyVal
  | .datetime y mo d h mi s => .str (fmtDateTime y mo d h mi s)
  | v => v

/-- Row assignment `row[attr] = val` (dict set). -/
def rowSet (d : Row) (k : String) (v : PyVal) : Row :=
  match d with
  | [] => [(k, v)]
  | (k0, v0) :: rest => if k0 = k then (k, v) :: rest else (k0, v0) :: rowSet rest k v

/-- One cell: invoke the callable, or nested attribute traversal. -/
def cellValue (item : PyVal) : ColField → Except PyErr PyVal
  | .computed f => .ok (f item)
  | .path p => nested_getattr item p

/-- The inner loop over column-map entries for one record. -/
def buildRowGo (item : PyVal) : Columns → Row → Except PyErr Row
  | [], row => .ok row
  | (attr, fld) :: rest, row =>
    match cellValue item fld with
    | .error e => .error e
    | .ok v => buildRowGo item rest (rowSet row attr (jsonSafe v))

/-- Materialize one record into an output row. -/
def buildRow (cols : Columns) (item : PyVal) : Except PyErr Row :=
  buildRowGo item cols []

/-- Materialize every record of the page. -/
def buildRows (cols : Columns) : List PyVal → Except PyErr (List Row)
  | [] => .ok []
  | it :: rest =>
    match buildRow cols it with
    | .error e => .error e
    | .ok r =>
      match buildRows cols rest with
      | .error e => .error e
      | .ok rs => .ok (r :: rs)

/-! ### Response assembly (lines 196-227) -/

/-- The response envelope. -/
structure Envelope : Type where
  draw : Int
  data : List Row
  recordsTotal : Nat
  recordsFiltered : Nat

/-- `{'draw': 0, 'data': [], 'recordsTotal': 0, 'recordsFiltered': 0}`. -/
def degenerateEnvelope : Envelope := ⟨0, [], 0, 0⟩

/-- `int(params.get('draw'))` with `ValueError` and `TypeError` both
caught: `none` means the degenerate envelope is returned. -/
def drawParse (ps : Params) : Option Int :=
  match pget ps "draw" with
  | Option.none => Option.none
  | some s => pyInt s

/-- The filtered-and-ordered view of line 196, before pagination. -/
def preRows (cols : Columns) (ps : Params) (base : List PyVal) : List PyVal :=
  orderBy (buildOrder cols ps) (applyFilters (buildFilter cols ps) base)

/-- The whole `datatables` method: build the filter and sort specs,
parse pagination, slice when `limit > 0`, materialize the page, then
cast `draw` (returning the degenerate envelope on failure) and wrap
up the envelope. -/
def datatables (cols : Columns) (ps : Params) (self : List PyVal) :
    Except PyErr Envelope :=
  match pagination ps with
  | .error e => .error e
  | .ok (limit, offset) =>
    match (if 0 < limit then qslice offset limit (preRows cols ps self)
           else .ok (preRows cols ps self)) with
    | .error e => .error e
    | .ok page =>
      match buildRows cols page with
      | .error e => .error e
      | .ok rows =>
        match drawParse ps with
        | Option.none => .ok degenerateEnvelope
        | some d => .ok ⟨d, rows, self.length, (preRows cols ps self).length⟩

/-! ### Concrete request templates used by the claim theorems -/

/-- One mapped column named `Name`. -/
def c2cols (f : String) : Columns := [("Name", ColField.path f)]

/-- A request with one searchable column whose per-column search value
is `v`. -/
def c2params (v : String) : Params :=
  [("columns[0][searchable]", "true"), ("columns[0][data]", "Name"),
   ("columns[0][search][value]", v)]

/-- Three mapped columns `A`, `B`, `C`. -/
def c3cols (f g h : String) : Columns :=
  [("A", ColField.path f), ("B", ColField.path g), ("C", ColField.path h)]

/-- A request with a global search value `gv`, a negated (`!`-prefixed)
per-column value on column 0, a plain per-column value on column 1,
and no per-column value on column 2. -/
def c3params (sv pv gv : String) : Params :=
  [("search[value]", gv),
   ("columns[0][searchable]", "true"), ("columns[0][data]", "A"),
   ("columns[0][search][value]", String.mk ('!' :: sv.data)),
   ("columns[1][searchable]", "true"), ("columns[1][data]", "B"),
   ("columns[1][search][value]", pv),
   ("columns[2][searchable]", "true"), ("columns[2][data]", "C")]

/-- Three orderable columns for the sort-order claims. -/
def c4cols : Columns :=
  [("A", ColField.path "a"), ("B", ColField.path "b"), ("C", ColField.path "c")]

/-- Three sort entries with order indices 0, 1, 2, iterated in
decreasing index order. -/
def c4paramsRev : Params :=
  [("order[2][column]", "2"), ("order[2][dir]", "asc"),
   ("order[1][column]", "1"), ("order[1][dir]", "asc"),
   ("order[0][column]", "0"), ("order[0][dir]", "asc"),
   ("columns[0][orderable]", "true"), ("columns[0][data]", "A"),
   ("columns[1][orderable]", "true"), ("columns[1][data]", "B"),
   ("columns[2][orderable]", "true"), ("columns[2][data]", "C")]

/-- Two mapped columns for the two-entry sort example. -/
def c4cols2 : Columns := [("A", ColField.path "a"), ("C", ColField.path "c")]

/-- `order[0][column]=2,dir=desc` and `order[1][column]=0,dir=asc`,
iterated in parameter order 0 then 1. -/
def c4paramsFwd2 : Params :=
  [("order[0][column]", "2"), ("order[0][dir]", "desc"),
   ("order[1][column]", "0"), ("order[1][dir]", "asc"),
   ("columns[0][orderable]", "true"), ("columns[0][data]", "A"),
   ("columns[2][orderable]", "true"), ("columns[2][data]", "C")]

/-- The same two sort entries, iterated with `order[1]` before
`order[0]`. -/
def c4paramsRev2 : Params :=
  [("order[1][column]", "0"), ("order[1][dir]", "asc"),
   ("order[0][column]", "2"), ("order[0][dir]", "desc"),
   ("columns[0][orderable]", "true"), ("columns[0][data]", "A"),
   ("columns[2][orderable]", "true"), ("columns[2][data]", "C")]

/-- Two mapped columns for the global-search claim. -/
def c7cols : Columns := [("X", ColField.path "alpha"), ("Y", ColField.path "beta")]

/-- A request with a global search value `gv`, a per-column value `pv`
on column 0, and none on column 1. -/
def c7params (gv pv : String) : Params :=
  [("search[value]", gv),
   ("columns[0][searchable]", "true"), ("columns[0][data]", "X"),
   ("columns[0][search][value]", pv),
   ("columns[1][searchable]", "true"), ("columns[1][data]", "Y")]

/-- Column map for the envelope-invariant witness. -/
def c6cols : Columns := [("ID", ColField.path "id")]

/-- Request for the envelope-invariant witness. -/
def c6ps : Params := [("draw", "1"), ("length", "10"), ("start", "0")]

/-- Base collection for the envelope-invariant witness. -/
def c6self : List PyVal := [.obj [("id", .int 1)], .obj [("id", .int 2)]]

/-- The envelope `datatables` returns on the witness request. -/
def c6env : Envelope := ⟨1, [[("ID", .int 1)], [("ID", .int 2)]], 2, 2⟩

/-! ### Small string and structure lemmas -/

theorem mk_data (s : String) : String.mk s.data = s := rfl

theorem mk_bang_ne_empty (l : List Char) : (String.mk ('!' :: l) = "") = False := by
  simp [String.ext_iff]

theorem bang_mk (l : List Char) : strStartsWithBang (String.mk ('!' :: l)) = true := rfl

theorem drop1_bang (l : List Char) : strDrop1 (String.mk ('!' :: l)) = String.mk l := rfl

/-! ### `nested_getattr` lemmas -/

theorem ngLoop_noneV (t : List String) : ngLoop PyVal.none t = .ok PyVal.none := by
  cases t with
  | nil => rfl
  | cons a l => rfl

theorem isNoneV_eq {o : PyVal} (h : isNoneV o = true) : o = PyVal.none := by
  cases o <;> simp [isNoneV] at h ⊢

/-- C8: for every record and every dotted field path, the nested field
traversal resolves to null without raising as soon as an intermediate
value is null: once the walk has produced `None` on a prefix of the
segments, the whole traversal returns `None` and no error is raised;
in particular path `user.name` on a record whose `user` attribute is
null yields null for that cell. -/
theorem C8_null_traversal :
    (∀ (o : PyVal) (s t : List String), ngLoop o s = .ok PyVal.none →
      ngLoop o (s ++ t) = .ok PyVal.none) ∧
    (∀ fs : List (String × PyVal), lookupStr fs "user" = some PyVal.none →
      nested_getattr (PyVal.obj fs) "user.name" = .ok PyVal.none) := by
  constructor
  · intro o s t h
    induction s generalizing o with
    | nil =>
      have ho : o = PyVal.none := by simpa [ngLoop] using h
      subst ho
      exact ngLoop_noneV t
    | cons seg rest ih =>
      by_cases hn : isNoneV o = true
      · rw [isNoneV_eq hn]
        exact ngLoop_noneV _
      · simp only [Bool.not_eq_true] at hn
        simp only [List.cons_append, ngLoop, hn, Bool.false_eq_true, if_false] at h ⊢
        cases hpg : pyGetattr o seg with
        | error e => rw [hpg] at h; exact absurd h (by simp)
        | ok o2 => rw [hpg] at h; exact ih o2 h
  · intro fs hfs
    show ngLoop (PyVal.obj fs) ["user", "name"] = .ok PyVal.none
    simp [ngLoop, isNoneV, pyGetattr, hfs]

theorem C8_witness :
    nested_getattr (PyVal.obj [("user", PyVal.none)]) "user.name" = .ok PyVal.none :=
  C8_null_traversal.2 [("user", PyVal.none)] rfl

/-- C9: every materialized cell passes through the datetime
normalization: a `datetime` value becomes its canonical
`YYYY-MM-DD HH:MM:SS` string before being stored in the output row,
and a value of any other type passes through unchanged. -/
theorem C9_datetime_serialization :
    (∀ (n fp : String) (item v : PyVal), nested_getattr item fp = .ok v →
      buildRow [(n, ColField.path fp)] item = .ok [(n, jsonSafe v)]) ∧
    (∀ y mo d h mi s, jsonSafe (PyVal.datetime y mo d h mi s) =
      .str (fmtDateTime y mo d h mi s)) ∧
    (∀ v : PyVal, (∀ y mo d h mi s, v ≠ PyVal.datetime y mo d h mi s) → jsonSafe v = v) ∧
    jsonSafe (PyVal.datetime 2026 3 4 5 6 7) = .str "2026-03-04 05:06:07" := by
  refine ⟨?_, ?_, ?_, rfl⟩
  · intro n fp item v h
    simp [buildRow, buildRowGo, cellValue, h, rowSet]
  · intro y mo d h mi s
    rfl
  · intro v hv
    cases v with
    | none => rfl
    | bool b => rfl
    | int k => rfl
    | str s => rfl
    | datetime y mo d h mi s => exact absurd rfl (hv y mo d h mi s)
    | obj fs => rfl

theorem C9_witness :
    buildRow [("T", ColField.path "t")] (PyVal.obj [("t", PyVal.datetime 2020 1 2 3 4 5)]) =
      .ok [("T", PyVal.str "2020-01-02 03:04:05")] :=
  C9_datetime_serialization.1 "T" "t" _ (PyVal.datetime 2020 1 2 3 4 5) rfl

/-! ### Pagination claims -/

/-- C5 counterexample: a request whose `length` parameter is omitted
does not fall back to the default page size; `int(None)` raises a
`TypeError` that only the `draw` cast would catch, so the whole call
propagates the error. -/
theorem C5_counterexample :
    pget [("start", "7")] "length" = Option.none ∧
    datatables [] [("start", "7")] [] = .error PyErr.typeError :=
  ⟨rfl, rfl⟩

/-- C5 (amended): when `length` is present but does not parse as an
integer, the limit and offset fall back to the defaults `(10, 0)`;
when `length` parses and `start` is present but does not parse, the
offset falls back to `0` while the parsed limit is kept; but when
`length` (or `start`) is omitted, an uncaught `TypeError` propagates
instead of any default applying. -/
theorem C5_amended (ps : Params) :
    (∀ s, pget ps "length" = some s → pyInt s = Option.none →
      pagination ps = .ok (10, 0)) ∧
    (∀ s L t, pget ps "length" = some s → pyInt s = some L →
      pget ps "start" = some t → pyInt t = Option.none →
      pagination ps = .ok (L, 0)) ∧
    (pget ps "length" = Option.none → pagination ps = .error PyErr.typeError) ∧
    (∀ s L, pget ps "length" = some s → pyInt s = some L →
      pget ps "start" = Option.none → pagination ps = .error PyErr.typeError) := by
  refine ⟨?_, ?_, ?_, ?_⟩
  · intro s h1 h2
    simp [pagination, h1, h2]
  · intro s L t h1 h2 h3 h4
    simp [pagination, h1, h2, h3, h4]
  · intro h1
    simp [pagination, h1]
  · intro s L h1 h2 h3
    simp [pagination, h1, h2, h3]

theorem C5_witness :
    pagination [("length", "abc"), ("start", "7")] = .ok (10, 0) :=
  (C5_amended [("length", "abc"), ("start", "7")]).1 "abc" rfl rfl

/-- C10: when `length` is present but fails integer parsing, the caught
`ValueError` aborts the whole `try` block before `start` is ever
parsed, so the offset stays `0` (and the limit `10`) regardless of
the `start` parameter. -/
theorem C10_offset_skipped (ps : Params) (s : String)
    (h1 : pget ps "length" = some s) (h2 : pyInt s = Option.none) :
    pagination ps = .ok (10, 0) := by
  simp [pagination, h1, h2]

theorem C10_witness : pagination [("length", "oops"), ("start", "42")] = .ok (10, 0) :=
  C10_offset_skipped [("length", "oops"), ("start", "42")] "oops" rfl rfl

/-! ### Draw-token claim -/

/-- C1 counterexample: on a request with no parameters at all, `draw`
is absent, yet the call does not return the degenerate envelope: the
pagination block raises an uncaught `TypeError` first (the `draw`
cast only happens at the very end of the method). -/
theorem C1_counterexample :
    pget [] "draw" = Option.none ∧
    datatables [] [] [] = .error PyErr.typeError ∧
    datatables [] [] [] ≠ .ok degenerateEnvelope := by
  refine ⟨rfl, rfl, ?_⟩
  intro hcon
  rw [show datatables [] [] [] = .error PyErr.typeError from rfl] at hcon
  exact Except.noConfusion hcon

/-- C1 (amended): on every request whose `draw` parameter is absent or
does not parse as an integer, if the call returns an envelope at all
(rather than raising from pagination parsing, slicing, or row
materialization), that envelope is exactly the degenerate
`{draw: 0, data: [], recordsTotal: 0, recordsFiltered: 0}`. -/
theorem C1_amended (cols : Columns) (ps : Params) (base : List PyVal) (env : Envelope)
    (hd : drawParse ps = Option.none) (h : datatables cols ps base = .ok env) :
    env = degenerateEnvelope := by
  unfold datatables at h
  split at h
  · exact absurd h (by simp)
  · split at h
    · exact absurd h (by simp)
    · split at h
      · exact absurd h (by simp)
      · split at h
        · exact (Except.ok.inj h).symm
        · rename_i heq
          rw [hd] at heq
          exact Option.noConfusion heq

theorem C1_witness :
    drawParse [("length", "5"), ("start", "0")] = Option.none ∧
    datatables [] [("length", "5"), ("start", "0")] [] = .ok degenerateEnvelope ∧
    degenerateEnvelope = degenerateEnvelope :=
  ⟨rfl, rfl, C1_amended [] [("length", "5"), ("start", "0")] [] degenerateEnvelope rfl rfl⟩

/-! ### Sort-order claims -/

/-- C4 counterexample: three sort entries with order indices 0, 1, 2,
iterated in decreasing index order, end up as `["a", "c", "b"]`: the
entry with order index 1 (column `b`) lands at position 2 and the
entry with order index 2 (column `c`) at position 1, so entries do
not land at their explicit order-index positions for every iteration
order. -/
theorem C4_counterexample :
    buildOrder c4cols c4paramsRev = ["a", "c", "b"] ∧
    ["a", "c", "b"] ≠ ["a", "b", "c"] :=
  ⟨rfl, by decide⟩

/-- C4 (amended): each sort entry is inserted at position
`min(order index, current length)` of the sort sequence: when its
order index is at most the number of entries already inserted, the
entry lands exactly at its order index, and when the index exceeds
the current length it is clamped to the end (appended).  In
particular the claim's example — `order[1][column]=0,dir=asc` scanned
before `order[0][column]=2,dir=desc` — still yields
`[col2 desc, col0 asc]` in either scan order; but an iteration order
that reaches an entry while its index is still out of range can
misplace entries. -/
theorem C4_amended :
    (∀ (l : List String) (idx : Int) (x : String), 0 ≤ idx → idx.toNat ≤ l.length →
      (pyInsert l idx x)[idx.toNat]? = some x) ∧
    (∀ (l : List String) (idx : Int) (x : String), 0 ≤ idx → l.length < idx.toNat →
      pyInsert l idx x = l ++ [x]) ∧
    buildOrder c4cols2 c4paramsFwd2 = ["-c", "a"] ∧
    buildOrder c4cols2 c4paramsRev2 = ["-c", "a"] := by
  refine ⟨?_, ?_, rfl, rfl⟩
  · intro l idx x h0 hle
    simp only [pyInsert]
    rw [if_neg (not_lt.mpr h0), min_eq_left hle,
      List.getElem?_append_right (by simp [List.length_take])]
    simp [List.length_take, Nat.min_eq_left hle]
  · intro l idx x h0 hlt
    simp only [pyInsert]
    rw [if_neg (not_lt.mpr h0), min_eq_right (Nat.le_of_lt hlt), List.take_length,
      List.drop_length]

theorem C4_witness : (pyInsert ["x"] 1 "y")[(1 : Int).toNat]? = some "y" :=
  C4_amended.1 ["x"] 1 "y" (by decide) (by decide)

/-! ### Ground reductions of the key regex on the template keys -/

theorem mkKeySearchable0 :
    matchKey "columns[" "][searchable]" "columns[0][searchable]" = some "0" := rfl

theorem mkKeySearchable1 :
    matchKey "columns[" "][searchable]" "columns[1][searchable]" = some "1" := rfl

theorem mkKeySearchable2 :
    matchKey "columns[" "][searchable]" "columns[2][searchable]" = some "2" := rfl

theorem mkKeyGlobal :
    matchKey "columns[" "][searchable]" "search[value]" = Option.none := rfl

theorem mkKeyData0 :
    matchKey "columns[" "][searchable]" "columns[0][data]" = Option.none := rfl

theorem mkKeyData1 :
    matchKey "columns[" "][searchable]" "columns[1][data]" = Option.none := rfl

theorem mkKeyData2 :
    matchKey "columns[" "][searchable]" "columns[2][data]" = Option.none := rfl

theorem mkKeySv0 :
    matchKey "columns[" "][searchable]" "columns[0][search][value]" = Option.none := rfl

theorem mkKeySv1 :
    matchKey "columns[" "][searchable]" "columns[1][search][value]" = Option.none := rfl

/-! ### Ground parameter lookups on the templates -/

theorem pgetC2name (v : String) : pget (c2params v) "columns[0][name]" = Option.none := rfl

theorem pgetC2data (v : String) : pget (c2params v) "columns[0][data]" = some "Name" := rfl

theorem pgetC2sv (v : String) : pget (c2params v) "columns[0][search][value]" = some v := rfl

theorem pgetC2global (v : String) : pget (c2params v) "search[value]" = Option.none := rfl

theorem fieldOfC2 (f v : String) (hf : f ≠ "") :
    fieldOf (c2cols f) (c2params v) "0" = some f := by
  simp [fieldOf, colNameOf, pgetC2name, pgetC2data, c2cols, colsGet, hf]

/-! ### Characterizations of one filter-builder step -/

theorem colStep_skip (cols : Columns) (ps : Params) (gv : Option String) (acc : FilterSpec)
    (k v : String) (hk : matchKey "columns[" "][searchable]" k = Option.none) :
    colSearchStep cols ps gv acc (k, v) = acc := by
  simp [colSearchStep, hk]

theorem colStep_and (cols : Columns) (ps : Params) (gv : Option String) (acc : FilterSpec)
    (k col p sv : String)
    (hk : matchKey "columns[" "][searchable]" k = some col)
    (hfo : fieldOf cols ps col = some p)
    (hpv : pget ps ("columns[" ++ col ++ "][search][value]") = some sv)
    (hne : sv ≠ "") (hnb : strStartsWithBang sv = false) :
    colSearchStep cols ps gv acc (k, "true") =
      { acc with andC := pySet acc.andC (replaceDots p ++ "__" ++ (classify sv).1) (classify sv).2 } := by
  simp [colSearchStep, hk, hfo, hpv, hne, hnb]

theorem colStep_andNot (cols : Columns) (ps : Params) (gv : Option String) (acc : FilterSpec)
    (k col p sv : String)
    (hk : matchKey "columns[" "][searchable]" k = some col)
    (hfo : fieldOf cols ps col = some p)
    (hpv : pget ps ("columns[" ++ col ++ "][search][value]") = some sv)
    (hne : sv ≠ "") (hnb : strStartsWithBang sv = true) :
    colSearchStep cols ps gv acc (k, "true") =
      { acc with andNotC := pySet acc.andNotC (replaceDots p ++ "__" ++ (classify (strDrop1 sv)).1) (classify (strDrop1 sv)).2 } := by
  simp [colSearchStep, hk, hfo, hpv, hne, hnb]

theorem colStep_or (cols : Columns) (ps : Params) (g : String) (acc : FilterSpec)
    (k col p : String)
    (hk : matchKey "columns[" "][searchable]" k = some col)
    (hfo : fieldOf cols ps col = some p)
    (hpv : pget ps ("columns[" ++ col ++ "][search][value]") = Option.none)
    (hg : g ≠ "") :
    colSearchStep cols ps (some g) acc (k, "true") =
      { acc with orC := acc.orC ++ [(replaceDots p ++ "__icontains", g)] } := by
  simp [colSearchStep, hk, hfo, hpv, hg]

/-- C2: for a searchable, mapped, non-computed column with a non-empty
per-column search value, the emitted condition (routed to the AND
group, or the AND-NOT group when the raw value starts with `!`) uses
the operator chosen by the ordered rules: the literal `None` gives
`isnull` with comparison value `True`; a value consisting only of
digits gives `exact`; a value containing a comma gives `in` with the
comma-split list; any other value gives `icontains`. -/
theorem C2_operator_rules (f sv : String) (neg : Bool) (hf : f ≠ "") (hsv : sv ≠ "")
    (hsb : strStartsWithBang sv = false) :
    buildFilter (c2cols f) (c2params (if neg then String.mk ('!' :: sv.data) else sv)) =
      (if neg then
        ⟨[], [], [(replaceDots f ++ "__" ++ (classify sv).1, (classify sv).2)]⟩
      else
        ⟨[], [(replaceDots f ++ "__" ++ (classify sv).1, (classify sv).2)], []⟩ :
        FilterSpec) ∧
    (sv = "None" → classify sv = ("isnull", CondVal.vTrue)) ∧
    (sv ≠ "None" → isDigits sv = true → classify sv = ("exact", CondVal.vStr sv)) ∧
    (sv ≠ "None" → isDigits sv = false → hasComma sv = true →
      classify sv = ("in", CondVal.vList (strSplit ',' sv))) ∧
    (sv ≠ "None" → isDigits sv = false → hasComma sv = false →
      classify sv = ("icontains", CondVal.vStr sv)) := by
  refine ⟨?_, ?_, ?_, ?_, ?_⟩
  · cases neg with
    | false =>
      show List.foldl
        (colSearchStep (c2cols f) (c2params sv) (pget (c2params sv) "search[value]"))
        ⟨[], [], []⟩
        [("columns[0][searchable]", "true"), ("columns[0][data]", "Name"),
         ("columns[0][search][value]", sv)] = _
      rw [pgetC2global, List.foldl_cons,
        colStep_and (c2cols f) (c2params sv) Option.none ⟨[], [], []⟩
          "columns[0][searchable]" "0" f sv mkKeySearchable0 (fieldOfC2 f sv hf)
          (pgetC2sv sv) hsv hsb,
        List.foldl_cons,
        colStep_skip (c2cols f) (c2params sv) Option.none _ "columns[0][data]" "Name"
          mkKeyData0,
        List.foldl_cons,
        colStep_skip (c2cols f) (c2params sv) Option.none _ "columns[0][search][value]" sv
          mkKeySv0,
        List.foldl_nil]
      simp [pySet]
    | true =>
      show List.foldl
        (colSearchStep (c2cols f) (c2params (String.mk ('!' :: sv.data)))
          (pget (c2params (String.mk ('!' :: sv.data))) "search[value]"))
        ⟨[], [], []⟩
        [("columns[0][searchable]", "true"), ("columns[0][data]", "Name"),
         ("columns[0][search][value]", String.mk ('!' :: sv.data))] = _
      rw [pgetC2global, List.foldl_cons,
        colStep_andNot (c2cols f) (c2params (String.mk ('!' :: sv.data))) Option.none
          ⟨[], [], []⟩ "columns[0][searchable]" "0" f (String.mk ('!' :: sv.data))
          mkKeySearchable0 (fieldOfC2 f (String.mk ('!' :: sv.data)) hf)
          (pgetC2sv (String.mk ('!' :: sv.data))) (by simp [mk_bang_ne_empty])
          (bang_mk sv.data),
        List.foldl_cons,
        colStep_skip (c2cols f) (c2params (String.mk ('!' :: sv.data))) Option.none _
          "columns[0][data]" "Name" mkKeyData0,
        List.foldl_cons,
        colStep_skip (c2cols f) (c2params (String.mk ('!' :: sv.data))) Option.none _
          "columns[0][search][value]" (String.mk ('!' :: sv.data)) mkKeySv0,
        List.foldl_nil]
      simp [pySet, drop1_bang, mk_data]
  · intro h1
    simp [classify, h1]
  · intro h1 h2
    simp [classify, h1, h2]
  · intro h1 h2 h3
    simp [classify, h1, h2, h3]
  · intro h1 h2 h3
    simp [classify, h1, h2, h3]

theorem C2_witness :
    buildFilter (c2cols "name") (c2params "3,7") =
      ⟨[], [("name__in", CondVal.vList ["3", "7"])], []⟩ :=
  (C2_operator_rules "name" "3,7" false (by decide) (by decide) rfl).1

/-! ### Global search / per-column exclusivity -/

theorem pgetC7global (gv pv : String) : pget (c7params gv pv) "search[value]" = some gv := rfl

theorem pgetC7sv0 (gv pv : String) :
    pget (c7params gv pv) "columns[0][search][value]" = some pv := rfl

theorem pgetC7sv1 (gv pv : String) :
    pget (c7params gv pv) "columns[1][search][value]" = Option.none := rfl

theorem fieldOfC7x (gv pv : String) : fieldOf c7cols (c7params gv pv) "0" = some "alpha" := rfl

theorem fieldOfC7y (gv pv : String) : fieldOf c7cols (c7params gv pv) "1" = some "beta" := rfl

/-- C7: with a non-empty global search value, a searchable mapped
non-computed column carrying its own non-empty per-column value never
contributes to the global OR group, while such a column without a
per-column value contributes exactly `field__icontains` against the
global value: on the two-column template the OR group is the single
entry for the value-less column `beta`, and no entry for `alpha`
appears. -/
theorem C7_global_or_exclusivity (gv pv : String) (hgv : gv ≠ "") (hpv : pv ≠ "") :
    (buildFilter c7cols (c7params gv pv)).orC = [("beta__icontains", gv)] ∧
    ∀ v : String, ("alpha__icontains", v) ∉ (buildFilter c7cols (c7params gv pv)).orC := by
  have hor : (buildFilter c7cols (c7params gv pv)).orC = [("beta__icontains", gv)] := by
    have hshow : buildFilter c7cols (c7params gv pv) =
        List.foldl
          (colSearchStep c7cols (c7params gv pv) (pget (c7params gv pv) "search[value]"))
          ⟨[], [], []⟩
          [("search[value]", gv),
           ("columns[0][searchable]", "true"), ("columns[0][data]", "X"),
           ("columns[0][search][value]", pv),
           ("columns[1][searchable]", "true"), ("columns[1][data]", "Y")] := rfl
    rw [hshow, pgetC7global]
    cases hb : strStartsWithBang pv with
    | false =>
      rw [List.foldl_cons, colStep_skip c7cols (c7params gv pv) (some gv) _ "search[value]" gv
            mkKeyGlobal,
        List.foldl_cons,
        colStep_and c7cols (c7params gv pv) (some gv) ⟨[], [], []⟩
          "columns[0][searchable]" "0" "alpha" pv mkKeySearchable0 (fieldOfC7x gv pv)
          (pgetC7sv0 gv pv) hpv hb,
        List.foldl_cons, colStep_skip c7cols (c7params gv pv) (some gv) _ "columns[0][data]"
          "X" mkKeyData0,
        List.foldl_cons, colStep_skip c7cols (c7params gv pv) (some gv) _
          "columns[0][search][value]" pv mkKeySv0,
        List.foldl_cons,
        colStep_or c7cols (c7params gv pv) gv _ "columns[1][searchable]" "1" "beta"
          mkKeySearchable1 (fieldOfC7y gv pv) (pgetC7sv1 gv pv) hgv,
        List.foldl_cons, colStep_skip c7cols (c7params gv pv) (some gv) _ "columns[1][data]"
          "Y" mkKeyData1,
        List.foldl_nil]
      simp
      rfl
    | true =>
      rw [List.foldl_cons, colStep_skip c7cols (c7params gv pv) (some gv) _ "search[value]" gv
            mkKeyGlobal,
        List.foldl_cons,
        colStep_andNot c7cols (c7params gv pv) (some gv) ⟨[], [], []⟩
          "columns[0][searchable]" "0" "alpha" pv mkKeySearchable0 (fieldOfC7x gv pv)
          (pgetC7sv0 gv pv) hpv hb,
        List.foldl_cons, colStep_skip c7cols (c7params gv pv) (some gv) _ "columns[0][data]"
          "X" mkKeyData0,
        List.foldl_cons, colStep_skip c7cols (c7params gv pv) (some gv) _
          "columns[0][search][value]" pv mkKeySv0,
        List.foldl_cons,
        colStep_or c7cols (c7params gv pv) gv _ "columns[1][searchable]" "1" "beta"
          mkKeySearchable1 (fieldOfC7y gv pv) (pgetC7sv1 gv pv) hgv,
        List.foldl_cons, colStep_skip c7cols (c7params gv pv) (some gv) _ "columns[1][data]"
          "Y" mkKeyData1,
        List.foldl_nil]
      simp
      rfl
  refine ⟨hor, ?_⟩
  intro v hcon
  rw [hor] at hcon
  have : ("alpha__icontains" : String) = "beta__icontains" := by
    simpa using congrArg Prod.fst (List.mem_singleton.mp hcon)
  exact absurd this (by decide)

theorem C7_witness :
    (buildFilter c7cols (c7params "q" "w")).orC = [("beta__icontains", "q")] :=
  (C7_global_or_exclusivity "q" "w" (by decide) (by decide)).1

/-! ### Negated per-column filters and the executor pipeline -/

theorem pgetC3global (sv pv gv : String) :
    pget (c3params sv pv gv) "search[value]" = some gv := rfl

theorem pgetC3sv0 (sv pv gv : String) :
    pget (c3params sv pv gv) "columns[0][search][value]" = some (String.mk ('!' :: sv.data)) := rfl

theorem pgetC3sv1 (sv pv gv : String) :
    pget (c3params sv pv gv) "columns[1][search][value]" = some pv := rfl

theorem pgetC3sv2 (sv pv gv : String) :
    pget (c3params sv pv gv) "columns[2][search][value]" = Option.none := rfl

theorem pgetC3name0 (sv pv gv : String) :
    pget (c3params sv pv gv) "columns[0][name]" = Option.none := rfl

theorem pgetC3data0 (sv pv gv : String) :
    pget (c3params sv pv gv) "columns[0][data]" = some "A" := rfl

theorem pgetC3name1 (sv pv gv : String) :
    pget (c3params sv pv gv) "columns[1][name]" = Option.none := rfl

theorem pgetC3data1 (sv pv gv : String) :
    pget (c3params sv pv gv) "columns[1][data]" = some "B" := rfl

theorem pgetC3name2 (sv pv gv : String) :
    pget (c3params sv pv gv) "columns[2][name]" = Option.none := rfl

theorem pgetC3data2 (sv pv gv : String) :
    pget (c3params sv pv gv) "columns[2][data]" = some "C" := rfl

theorem fieldOfC3a (f g h sv pv gv : String) (hf : f ≠ "") :
    fieldOf (c3cols f g h) (c3params sv pv gv) "0" = some f := by
  simp [fieldOf, colNameOf, pgetC3name0, pgetC3data0, c3cols, colsGet, hf]

theorem fieldOfC3b (f g h sv pv gv : String) (hg : g ≠ "") :
    fieldOf (c3cols f g h) (c3params sv pv gv) "1" = some g := by
  simp [fieldOf, colNameOf, pgetC3name1, pgetC3data1, c3cols, colsGet, hg]

theorem fieldOfC3c (f g h sv pv gv : String) (hh : h ≠ "") :
    fieldOf (c3cols f g h) (c3params sv pv gv) "2" = some h := by
  simp [fieldOf, colNameOf, pgetC3name2, pgetC3data2, c3cols, colsGet, hh]

/-- C3: a per-column search value beginning with `!` routes its
condition (built from the stripped value) to the AND-NOT group, and
the executor applies the AND group, then the exclusion, then the OR
group: a row is in the resulting set exactly when it is in the
AND-filtered collection (not merely the raw collection), does not
match the stripped value's condition, and matches the OR group. -/
theorem C3_negation_excludes (f g h sv pv gv : String)
    (hf : f ≠ "") (hg : g ≠ "") (hh : h ≠ "")
    (hpv : pv ≠ "") (hpb : strStartsWithBang pv = false) (hgv : gv ≠ "") :
    buildFilter (c3cols f g h) (c3params sv pv gv) =
      ⟨[(replaceDots h ++ "__icontains", gv)],
       [(replaceDots g ++ "__" ++ (classify pv).1, (classify pv).2)],
       [(replaceDots f ++ "__" ++ (classify sv).1, (classify sv).2)]⟩ ∧
    ∀ (base : List PyVal) (r : PyVal),
      r ∈ preRows (c3cols f g h) (c3params sv pv gv) base ↔
        ((r ∈ base ∧
            evalCond r (replaceDots g ++ "__" ++ (classify pv).1) (classify pv).2 = true) ∧
          ¬ evalCond r (replaceDots f ++ "__" ++ (classify sv).1) (classify sv).2 = true) ∧
        evalCond r (replaceDots h ++ "__icontains") (CondVal.vStr gv) = true := by
  have hbf : buildFilter (c3cols f g h) (c3params sv pv gv) =
      ⟨[(replaceDots h ++ "__icontains", gv)],
       [(replaceDots g ++ "__" ++ (classify pv).1, (classify pv).2)],
       [(replaceDots f ++ "__" ++ (classify sv).1, (classify sv).2)]⟩ := by
    have hshow : buildFilter (c3cols f g h) (c3params sv pv gv) =
        List.foldl
          (colSearchStep (c3cols f g h) (c3params sv pv gv)
            (pget (c3params sv pv gv) "search[value]"))
          ⟨[], [], []⟩
          [("search[value]", gv),
           ("columns[0][searchable]", "true"), ("columns[0][data]", "A"),
           ("columns[0][search][value]", String.mk ('!' :: sv.data)),
           ("columns[1][searchable]", "true"), ("columns[1][data]", "B"),
           ("columns[1][search][value]", pv),
           ("columns[2][searchable]", "true"), ("columns[2][data]", "C")] := rfl
    rw [hshow, pgetC3global, List.foldl_cons,
      colStep_skip (c3cols f g h) (c3params sv pv gv) (some gv) _ "search[value]" gv
        mkKeyGlobal,
      List.foldl_cons,
      colStep_andNot (c3cols f g h) (c3params sv pv gv) (some gv) ⟨[], [], []⟩
        "columns[0][searchable]" "0" f (String.mk ('!' :: sv.data)) mkKeySearchable0
        (fieldOfC3a f g h sv pv gv hf) (pgetC3sv0 sv pv gv) (by simp [mk_bang_ne_empty])
        (bang_mk sv.data),
      List.foldl_cons,
      colStep_skip (c3cols f g h) (c3params sv pv gv) (some gv) _ "columns[0][data]" "A"
        mkKeyData0,
      List.foldl_cons,
      colStep_skip (c3cols f g h) (c3params sv pv gv) (some gv) _
        "columns[0][search][value]" (String.mk ('!' :: sv.data)) mkKeySv0,
      List.foldl_cons,
      colStep_and (c3cols f g h) (c3params sv pv gv) (some gv) _
        "columns[1][searchable]" "1" g pv mkKeySearchable1
        (fieldOfC3b f g h sv pv gv hg) (pgetC3sv1 sv pv gv) hpv hpb,
      List.foldl_cons,
      colStep_skip (c3cols f g h) (c3params sv pv gv) (some gv) _ "columns[1][data]" "B"
        mkKeyData1,
      List.foldl_cons,
      colStep_skip (c3cols f g h) (c3params sv pv gv) (some gv) _
        "columns[1][search][value]" pv mkKeySv1,
      List.foldl_cons,
      colStep_or (c3cols f g h) (c3params sv pv gv) gv _
        "columns[2][searchable]" "2" h mkKeySearchable2
        (fieldOfC3c f g h sv pv gv hh) (pgetC3sv2 sv pv gv) hgv,
      List.foldl_cons,
      colStep_skip (c3cols f g h) (c3params sv pv gv) (some gv) _ "columns[2][data]" "C"
        mkKeyData2,
      List.foldl_nil]
    simp [pySet, drop1_bang, mk_data]
  refine ⟨hbf, ?_⟩
  intro base r
  have hpre : preRows (c3cols f g h) (c3params sv pv gv) base =
      applyFilters (buildFilter (c3cols f g h) (c3params sv pv gv)) base := by
    rw [preRows, show buildOrder (c3cols f g h) (c3params sv pv gv) = [] from rfl]
    rfl
  rw [hpre, hbf]
  simp only [applyFilters, applyAnd, applyExclude, applyOr]
  simp [List.mem_filter, matchesAll, matchesAnyOr]
  tauto

theorem C3_witness :
    buildFilter (c3cols "a" "b" "c") (c3params "foo" "bar" "q") =
      ⟨[("c__icontains", "q")], [("b__icontains", CondVal.vStr "bar")],
       [("a__icontains", CondVal.vStr "foo")]⟩ :=
  (C3_negation_excludes "a" "b" "c" "foo" "bar" "q" (by decide) (by decide) (by decide)
    (by decide) rfl (by decide)).1

/-! ### Length bookkeeping for the envelope invariants -/

theorem insSorted_length (le : PyVal → PyVal → Bool) (x : PyVal) (l : List PyVal) :
    (insSorted le x l).length = l.length + 1 := by
  induction l with
  | nil => rfl
  | cons y ys ih =>
    simp only [insSorted]
    split <;> simp [ih]

theorem isort_length (le : PyVal → PyVal → Bool) (l : List PyVal) :
    (isort le l).length = l.length := by
  induction l with
  | nil => rfl
  | cons x xs ih => simp [isort, insSorted_length, ih]

theorem orderBy_length (toks : List String) (rows : List PyVal) :
    (orderBy toks rows).length = rows.length := by
  cases toks with
  | nil => rfl
  | cons t ts => simp [orderBy, isort_length]

theorem applyAnd_length_le (c : List (String × CondVal)) (rows : List PyVal) :
    (applyAnd c rows).length ≤ rows.length :=
  List.length_filter_le _ _

theorem applyExclude_length_le (c : List (String × CondVal)) (rows : List PyVal) :
    (applyExclude c rows).length ≤ rows.length := by
  cases c with
  | nil => exact Nat.le_refl _
  | cons a l => exact List.length_filter_le _ _

theorem applyOr_length_le (c : List (String × String)) (rows : List PyVal) :
    (applyOr c rows).length ≤ rows.length := by
  cases c with
  | nil => exact Nat.le_refl _
  | cons a l => exact List.length_filter_le _ _

theorem applyFilters_length_le (spec : FilterSpec) (rows : List PyVal) :
    (applyFilters spec rows).length ≤ rows.length :=
  le_trans (applyOr_length_le _ _)
    (le_trans (applyExclude_length_le _ _) (applyAnd_length_le _ _))

theorem preRows_length_le (cols : Columns) (ps : Params) (base : List PyVal) :
    (preRows cols ps base).length ≤ base.length := by
  rw [preRows, orderBy_length]
  exact applyFilters_length_le _ _

theorem buildRows_ok_length (cols : Columns) :
    ∀ (l : List PyVal) (rs : List Row), buildRows cols l = .ok rs → rs.length = l.length := by
  intro l
  induction l with
  | nil =>
    intro rs hok
    have h2 : ([] : List Row) = rs := by simpa [buildRows] using hok
    rw [← h2]
    rfl
  | cons it rest ih =>
    intro rs hok
    unfold buildRows at hok
    cases hbr : buildRow cols it with
    | error e => rw [hbr] at hok; exact absurd hok (by simp)
    | ok r0 =>
      rw [hbr] at hok
      cases hbs : buildRows cols rest with
      | error e => rw [hbs] at hok; exact absurd hok (by simp)
      | ok rs0 =>
        rw [hbs] at hok
        have h2 : r0 :: rs0 = rs := by simpa using hok
        rw [← h2]
        simp [ih rs0 hbs]

theorem qslice_ok_le (off lim : Int) (rows out : List PyVal)
    (hok : qslice off lim rows = .ok out) :
    out.length ≤ lim.toNat ∧ out.length ≤ rows.length := by
  unfold qslice at hok
  split at hok
  · exact absurd hok (by simp)
  · have h2 : (rows.drop off.toNat).take lim.toNat = out := by simpa using hok
    rw [← h2]
    refine ⟨?_, ?_⟩
    · simp [List.length_take]
    · simp only [List.length_take, List.length_drop]
      omega

/-- C6: every envelope returned on the non-degenerate path satisfies
the documented invariants: `recordsFiltered ≤ recordsTotal`,
`len(data) ≤ recordsFiltered`, `len(data) ≤ limit` whenever the
effective limit is positive, and `len(data) = recordsFiltered`
whenever the effective limit is `≤ 0` (pagination disabled). -/
theorem C6_envelope_invariants (cols : Columns) (ps : Params) (self : List PyVal)
    (env : Envelope) (hok : datatables cols ps self = .ok env)
    (hnd : drawParse ps ≠ Option.none) :
    env.recordsFiltered ≤ env.recordsTotal ∧
    env.data.length ≤ env.recordsFiltered ∧
    ∀ limit offset, pagination ps = .ok (limit, offset) →
      (0 < limit → env.data.length ≤ limit.toNat) ∧
      (limit ≤ 0 → env.data.length = env.recordsFiltered) := by
  unfold datatables at hok
  split at hok
  · exact absurd hok (by simp)
  · rename_i limit offset hpag
    split at hok
    · exact absurd hok (by simp)
    · rename_i page hslice
      split at hok
      · exact absurd hok (by simp)
      · rename_i rows hrows
        split at hok
        · rename_i hdraw
          exact absurd hdraw hnd
        · rename_i d hdraw
          injection hok with hok2
          subst hok2
          have hrlen : rows.length = page.length := buildRows_ok_length cols page rows hrows
          by_cases hl : 0 < limit
          · rw [if_pos hl] at hslice
            obtain ⟨h1, h2⟩ := qslice_ok_le offset limit _ page hslice
            refine ⟨preRows_length_le cols ps self, ?_, ?_⟩
            · show rows.length ≤ (preRows cols ps self).length
              omega
            · intro limit2 offset2 hp2
              rw [hpag] at hp2
              injection hp2 with hp3
              rw [Prod.mk.injEq] at hp3
              obtain ⟨h4, h5⟩ := hp3
              subst h4
              refine ⟨?_, ?_⟩
              · intro hpos
                show rows.length ≤ limit.toNat
                omega
              · intro hneg
                omega
          · rw [if_neg hl] at hslice
            have hpage : preRows cols ps self = page := by simpa using hslice
            have hplen : (preRows cols ps self).length = page.length := by rw [hpage]
            refine ⟨preRows_length_le cols ps self, ?_, ?_⟩
            · show rows.length ≤ (preRows cols ps self).length
              omega
            · intro limit2 offset2 hp2
              rw [hpag] at hp2
              injection hp2 with hp3
              rw [Prod.mk.injEq] at hp3
              obtain ⟨h4, h5⟩ := hp3
              subst h4
              refine ⟨?_, ?_⟩
              · intro hpos
                exact absurd hpos hl
              · intro hneg
                show rows.length = (preRows cols ps self).length
                omega

theorem C6_witness :
    c6env.recordsFiltered ≤ c6env.recordsTotal ∧
    c6env.data.length ≤ c6env.recordsFiltered ∧
    ∀ limit offset, pagination c6ps = .ok (limit, offset) →
      (0 < limit → c6env.data.length ≤ limit.toNat) ∧
      (limit ≤ 0 → c6env.data.length = c6env.recordsFiltered) :=
  C6_envelope_invariants c6cols c6ps c6self c6env rfl (by decide)

end DTQ
